import Mathlib

/-!
Verification of the pattern-weighted scoring engine in
`prompt-engineering/tools/prompt-validator.js`.

Modelling conventions:
* JavaScript numbers are modelled as exact rationals (`ℚ`); every arithmetic
  operation the validator performs (sums, ratios of small integers,
  `Math.max`) is exact in `ℚ`.
* `Math.round` is modelled as `jsRound q = ⌊q + 1/2⌋` (round half up), which
  agrees with JavaScript on the non-negative values produced here.
* Regular-expression matching is the out-of-scope text layer: a document is
  represented by what the evaluators read from it, namely the number of
  matches of each criterion's pattern (keyed by the criterion key) and the
  content length.  `content.match(p)` returning `null` corresponds to a
  match count of `0`.
* The filesystem is a parameter of the batch runner: glob expansion yields a
  list of file paths, each paired with `some doc` (readable) or `none`
  (`readPromptFile` caught a read error and returned `null`).  A readable
  file whose content is the empty string is a document of length 0; the
  falsy guard `if (!content) return null` at line 229 drops it before any
  scoring, exactly like a read failure but without the error log.
-/

namespace PromptValidator

/-- JavaScript `Math.round`: round half toward positive infinity.  Stated
via the executable `Rat.floor`; `jsRound_eq_intFloor` below identifies it
with the mathematical floor. -/
def jsRound (q : ℚ) : ℤ := (q + 1/2).floor

/-- One entry of the `CRITERIA` table (prompt-validator.js lines 17-41): a
weight and an optional minimum match count.  The regex pattern itself stays
abstract; a `Doc` carries the match count per criterion key. -/
structure Criterion where
  weight : ℚ
  minCount : Option ℕ
deriving DecidableEq

/-- The `CRITERIA.structure` table (lines 18-24). -/
def structureCriteria : List (String × Criterion) :=
  [("overview", ⟨2, none⟩),
   ("techStack", ⟨1, none⟩),
   ("requirements", ⟨2, none⟩),
   ("steps", ⟨3, none⟩),
   ("validation", ⟨2, none⟩)]

/-- The `CRITERIA.technical` table (lines 25-30); only `codeBlocks` declares a
`minCount`. -/
def technicalCriteria : List (String × Criterion) :=
  [("codeBlocks", ⟨3, some 1⟩),
   ("componentImports", ⟨2, none⟩),
   ("typescriptTypes", ⟨2, none⟩),
   ("reactHooks", ⟨1, none⟩)]

/-- The `CRITERIA.validation` table (lines 31-35). -/
def validationCriteria : List (String × Criterion) :=
  [("checklistItems", ⟨3, some 5⟩),
   ("errorHandling", ⟨2, none⟩),
   ("examples", ⟨2, none⟩)]

/-- From `CRITERIA.aiCompatibility.contextBounds.maxLength` (line 37). -/
def contextBoundsMaxLength : ℕ := 6000

/-- From `CRITERIA.aiCompatibility.contextBounds.weight` (line 37). -/
def contextBoundsWeight : ℚ := 3

/-- From `CRITERIA.aiCompatibility.clarity.weight` (line 38). -/
def clarityWeight : ℚ := 3

/-- From `CRITERIA.aiCompatibility.references.weight` (line 39). -/
def referencesWeight : ℚ := 2

/-- Abstract view of a document: the number of regex matches of each
criterion's pattern on the text (keyed by criterion key) and the text
length.  Any concrete text induces such a view, so properties proved for
every `Doc` hold for every document text. -/
structure Doc where
  matchCount : String → ℕ
  length : ℕ

/-- Per-criterion part of a category result (the `results[key]` objects). -/
structure CriterionResult where
  passed : Bool
  score : ℚ
  maxScore : ℚ
  details : String
deriving DecidableEq

/-- A category result: per-criterion outcomes plus totals and percentage. -/
structure CategoryResult where
  results : List (String × CriterionResult)
  totalScore : ℚ
  maxScore : ℚ
  percentage : ℤ
deriving DecidableEq

/-- Loop body of `validateStructure` (lines 63-74): `content.match` with a
non-global pattern is truthy iff at least one match exists; score is the
full weight or zero. -/
def evalStructureCriterion (doc : Doc) (key : String) (c : Criterion) :
    CriterionResult :=
  let n := doc.matchCount key
  { passed := decide (1 ≤ n),
    score := if 1 ≤ n then c.weight else 0,
    maxScore := c.weight,
    details := if 1 ≤ n then "Found" else "Not found" }

/-- Function `validateStructure` (lines 58-82).  The loop accumulates
`totalScore` as the sum of the scores and `maxScore` as the sum of the
weights; we express the accumulation as list sums. -/
def validateStructure (doc : Doc) : CategoryResult :=
  let results := structureCriteria.map fun kc =>
    (kc.1, evalStructureCriterion doc kc.1 kc.2)
  let totalScore := (results.map fun kr => kr.2.score).sum
  let maxScore := (results.map fun kr => kr.2.maxScore).sum
  { results := results, totalScore := totalScore, maxScore := maxScore,
    percentage := jsRound (totalScore / maxScore * 100) }

/-- Loop body of `validateTechnical` (lines 92-105): `minCount` defaults to
1; a failing criterion with at least one match gets half weight. -/
def evalTechnicalCriterion (doc : Doc) (key : String) (c : Criterion) :
    CriterionResult :=
  let n := doc.matchCount key
  let m := c.minCount.getD 1
  { passed := decide (m ≤ n),
    score := if m ≤ n then c.weight else if 0 < n then c.weight / 2 else 0,
    maxScore := c.weight,
    details := "Found " ++ toString n ++ " matches, minimum required: "
      ++ toString m }

/-- Function `validateTechnical` (lines 87-114). -/
def validateTechnical (doc : Doc) : CategoryResult :=
  let results := technicalCriteria.map fun kc =>
    (kc.1, evalTechnicalCriterion doc kc.1 kc.2)
  let totalScore := (results.map fun kr => kr.2.score).sum
  let maxScore := (results.map fun kr => kr.2.maxScore).sum
  { results := results, totalScore := totalScore, maxScore := maxScore,
    percentage := jsRound (totalScore / maxScore * 100) }

/-- Loop body of `validateValidation` (lines 124-151): the key
`checklistItems` gets proportional partial credit
`(matches.length / minCount) * weight`; every other key is scored as a
boolean existence check. -/
def evalValidationCriterion (doc : Doc) (key : String) (c : Criterion) :
    CriterionResult :=
  if key == "checklistItems" then
    let n := doc.matchCount key
    let m := c.minCount.getD 1
    { passed := decide (m ≤ n),
      score := if m ≤ n then c.weight
        else if 0 < n then ((n : ℚ) / (m : ℚ)) * c.weight else 0,
      maxScore := c.weight,
      details := "Found " ++ toString n
        ++ " checklist items, minimum required: " ++ toString m }
  else
    let n := doc.matchCount key
    { passed := decide (1 ≤ n),
      score := if 1 ≤ n then c.weight else 0,
      maxScore := c.weight,
      details := if 1 ≤ n then "Found" else "Not found" }

/-- Function `validateValidation` (lines 119-159). -/
def validateValidation (doc : Doc) : CategoryResult :=
  let results := validationCriteria.map fun kc =>
    (kc.1, evalValidationCriterion doc kc.1 kc.2)
  let totalScore := (results.map fun kr => kr.2.score).sum
  let maxScore := (results.map fun kr => kr.2.maxScore).sum
  { results := results, totalScore := totalScore, maxScore := maxScore,
    percentage := jsRound (totalScore / maxScore * 100) }

/-- The `contextBounds` block of `validateAICompatibility` (lines 169-184):
pass iff the content length stays within the bound; otherwise the credit
decays linearly and `Math.max(0, _)` floors it at zero. -/
def contextBoundsResult (doc : Doc) : CriterionResult :=
  let contentLength : ℚ := (doc.length : ℚ)
  let contextPassed := doc.length ≤ contextBoundsMaxLength
  let contextScore := if contextPassed then contextBoundsWeight
    else contextBoundsWeight *
      (1 - (contentLength - (contextBoundsMaxLength : ℚ))
            / (contextBoundsMaxLength : ℚ))
  { passed := decide contextPassed,
    score := max 0 contextScore,
    maxScore := contextBoundsWeight,
    details := "Content length: " ++ toString doc.length
      ++ ", maximum recommended: " ++ toString contextBoundsMaxLength }

/-- The `references` block of `validateAICompatibility` (lines 187-199). -/
def referencesResult (doc : Doc) : CriterionResult :=
  let refN := doc.matchCount "references"
  { passed := decide (0 < refN),
    score := if 0 < refN then referencesWeight else 0,
    maxScore := referencesWeight,
    details := "Found " ++ toString refN ++ " references" }

/-- The derived `clarity` block of `validateAICompatibility` (lines
202-214): the structure percentage is borrowed as a proxy ratio. -/
def clarityResult (doc : Doc) : CriterionResult :=
  let structureScore : ℚ := ((validateStructure doc).percentage : ℚ) / 100
  { passed := decide ((7 / 10 : ℚ) < structureScore),
    score := clarityWeight * structureScore,
    maxScore := clarityWeight,
    details := "Estimated based on structure" }

/-- Function `validateAICompatibility` (lines 164-222). -/
def validateAICompatibility (doc : Doc) : CategoryResult :=
  let results := [("contextBounds", contextBoundsResult doc),
    ("references", referencesResult doc), ("clarity", clarityResult doc)]
  let totalScore := (contextBoundsResult doc).score
    + (referencesResult doc).score + (clarityResult doc).score
  let maxScore := contextBoundsWeight + referencesWeight + clarityWeight
  { results := results, totalScore := totalScore, maxScore := maxScore,
    percentage := jsRound (totalScore / maxScore * 100) }

/-- The recommendation ladder of `validatePrompt` (lines 244-251). -/
def recommendationFor (p : ℤ) : String :=
  if 90 ≤ p then "Approved for production"
  else if 75 ≤ p then "Approved with minor revisions"
  else if 50 ≤ p then "Requires significant revision"
  else "Rejected"

/-- The overall score block of a report (lines 260-264). -/
structure OverallScore where
  score : ℚ
  maxScore : ℚ
  percentage : ℤ
deriving DecidableEq

/-- A document report (lines 253-266).  The JavaScript field `structure` is
named `structureCat` here because `structure` is a Lean keyword; `file` and
`path` bookkeeping fields are omitted. -/
structure DocumentReport where
  structureCat : CategoryResult
  technicalCat : CategoryResult
  validationCat : CategoryResult
  aiCompatibilityCat : CategoryResult
  overallScore : OverallScore
  recommendation : String
deriving DecidableEq

/-- The report construction of `validatePrompt` (lines 231-266): the body
after the null-content guard, scoring a document that passed it.  (The full
function, guard included, is `validatePromptFile` below.) -/
def validatePrompt (doc : Doc) : DocumentReport :=
  let structureCat := validateStructure doc
  let technicalCat := validateTechnical doc
  let validationCat := validateValidation doc
  let aiCompatibilityCat := validateAICompatibility doc
  let totalScore := structureCat.totalScore + technicalCat.totalScore
    + validationCat.totalScore + aiCompatibilityCat.totalScore
  let maxScore := structureCat.maxScore + technicalCat.maxScore
    + validationCat.maxScore + aiCompatibilityCat.maxScore
  let overallPercentage := jsRound (totalScore / maxScore * 100)
  { structureCat := structureCat,
    technicalCat := technicalCat,
    validationCat := validationCat,
    aiCompatibilityCat := aiCompatibilityCat,
    overallScore :=
      { score := totalScore, maxScore := maxScore,
        percentage := overallPercentage },
    recommendation := recommendationFor overallPercentage }

/-- Function `validatePrompt` (lines 227-267) as invoked on a file:
`readPromptFile` returns `null` on a read error, and the falsy guard
`if (!content) return null` (line 229) also rejects content that reads
successfully but is the empty string — the document of length 0.  In both
cases no report is produced. -/
def validatePromptFile (content : Option Doc) : Option DocumentReport :=
  match content with
  | none => none
  | some doc => if doc.length = 0 then none else some (validatePrompt doc)

/-- Outcome of one iteration of the `files.forEach` loop of `main`
(lines 356-363): a report was produced and saved, or the read failed
inside `readPromptFile` (lines 46-53) and was logged, or the file read as
empty and the line-229 guard dropped it silently; in the latter two cases
`validatePrompt` returned `null` and the file was skipped. -/
inductive FileOutcome where
  | report (file : String) (r : DocumentReport)
  | readError (file : String)
  | emptySkipped (file : String)
deriving DecidableEq

/-- The batch loop of `main`: each matched file is visited in order; a file
whose read failed contributes a logged error instead of a report, a file
with empty content is skipped silently, and the loop continues. -/
def runBatch (files : List (String × Option Doc)) : List FileOutcome :=
  files.map fun fd =>
    match fd.2 with
    | some doc =>
      if doc.length = 0 then FileOutcome.emptySkipped fd.1
      else FileOutcome.report fd.1 (validatePrompt doc)
    | none => FileOutcome.readError fd.1

/-- Files for which a validation report is written
(`saveValidationResults`, modulo the `-validation.md` renaming). -/
def reportsOf (outcomes : List FileOutcome) : List String :=
  outcomes.filterMap fun o =>
    match o with
    | FileOutcome.report f _ => some f
    | _ => none

/-- The accumulator `totalScore` of `main` (lines 354-363): a percentage is
added only when `validatePrompt` returned a report; an unreadable or empty
file adds nothing. -/
def batchTotalScore (files : List (String × Option Doc)) : ℚ :=
  (files.map fun fd =>
    match validatePromptFile fd.2 with
    | some results => (results.overallScore.percentage : ℚ)
    | none => 0).sum

/-- Value `averageScore` of `main` (line 365): the accumulated total divided by
the number of matched files — not the number of processed files. -/
def averageScore (files : List (String × Option Doc)) : ℤ :=
  jsRound (batchTotalScore files / (files.length : ℚ))

/-- The usage message written to standard error when no argument is given
(lines 331-333). -/
def usageLines : List String :=
  ["Please provide file paths or a glob pattern",
   "Usage: node prompt-validator.js <file-pattern> [output-directory]",
   "Example: node prompt-validator.js \"../implementation/*.md\" ../validation-reports"]

/-- Observable outcome of a run of `main`: exit code, standard-error lines,
and which files got a validation report written.  Standard-output logging
and report file contents are not modelled. -/
structure MainOutcome where
  exitCode : ℕ
  stderrLines : List String
  reportsWritten : List String
deriving DecidableEq

/-- Function `main` (lines 327-368).  `globSync` abstracts `glob.sync` together with
the subsequent reads: it maps the pattern to the matched paths, each paired
with the read result.  The per-file read-error text printed by
`readPromptFile` carries an OS error message that is not modelled beyond
its prefix. -/
def main (args : List String)
    (globSync : String → List (String × Option Doc)) : MainOutcome :=
  match args with
  | [] =>
    { exitCode := 1, stderrLines := usageLines, reportsWritten := [] }
  | filePattern :: _ =>
    let files := globSync filePattern
    if files.length = 0 then
      { exitCode := 0,
        stderrLines :=
          ["Warning: No files found matching pattern: " ++ filePattern],
        reportsWritten := [] }
    else
      { exitCode := 0,
        stderrLines := files.filterMap fun fd =>
          match fd.2 with
          | none => some ("Error reading file " ++ fd.1)
          | some _ => none,
        reportsWritten := reportsOf (runBatch files) }

/-- A minimal non-empty document: one character of content, no pattern
matches anywhere (e.g. the text "x"); it passes the line-229 falsy guard. -/
def blankDoc : Doc := { matchCount := fun _ => 0, length := 1 }

/-- A document on which every pattern has exactly 3 matches. -/
def threeMatchDoc : Doc := { matchCount := fun _ => 3, length := 0 }

/-- A document of length 7000 with no pattern matches. -/
def longDoc : Doc := { matchCount := fun _ => 0, length := 7000 }

/-- Score recorded for `key` in a category result (0 if the key is absent). -/
def scoreOf (c : CategoryResult) (key : String) : ℚ :=
  ((c.results.lookup key).map CriterionResult.score).getD 0

/-- Pass flag recorded for `key` in a category result. -/
def passedOf (c : CategoryResult) (key : String) : Bool :=
  ((c.results.lookup key).map CriterionResult.passed).getD false

/-- Max score (= weight) recorded for `key` in a category result. -/
def maxScoreOf (c : CategoryResult) (key : String) : ℚ :=
  ((c.results.lookup key).map CriterionResult.maxScore).getD 0

/-- A criterion behaves as a boolean existence check with match count `n`:
it passes iff at least one match exists, and it is awarded the full weight
when passed and zero otherwise — never an intermediate value. -/
def booleanScored (c : CategoryResult) (key : String) (n : ℕ) : Prop :=
  passedOf c key = decide (1 ≤ n)
    ∧ scoreOf c key = (if 1 ≤ n then maxScoreOf c key else 0)

/-- The invariant claimed for every category result: each criterion score
lies in `[0, weight]`, the total is the sum of the criterion scores, and
the total lies in `[0, max]`. -/
def categoryOk (c : CategoryResult) : Prop :=
  (c.results.all fun kr => decide (0 ≤ kr.2.score ∧ kr.2.score ≤ kr.2.maxScore))
      = true
    ∧ c.totalScore = (c.results.map fun kr => kr.2.score).sum
    ∧ 0 ≤ c.totalScore ∧ c.totalScore ≤ c.maxScore

/-- The threshold table of the spec, highest first. -/
def thresholdLabels : List (ℤ × String) :=
  [(90, "Approved for production"),
   (75, "Approved with minor revisions"),
   (50, "Requires significant revision")]

/-- The spec's formulation of recommendation thresholding: iterate the
thresholds from highest to lowest and take the label of the first one the
percentage meets or exceeds; below all of them, the worst label. -/
def specRecommendation (p : ℤ) : String :=
  match thresholdLabels.find? fun t => decide (t.1 ≤ p) with
  | some t => t.2
  | none => "Rejected"

/-- Overall percentages of the successfully validated documents of a batch
(those for which `validatePrompt` returned a report), in order. -/
def processedPercentages (files : List (String × Option Doc)) : List ℤ :=
  files.filterMap fun fd =>
    (validatePromptFile fd.2).map fun r => r.overallScore.percentage

/-- Modelled from the spec: the arithmetic mean of overall percentages
across all processed (successfully validated) documents of a batch. -/
def processedMean (files : List (String × Option Doc)) : ℚ :=
  (((processedPercentages files).map fun p => (p : ℚ)).sum)
    / ((processedPercentages files).length : ℚ)

/-! ### Helper lemmas -/

theorem jsRound_eq_intFloor (q : ℚ) : jsRound q = ⌊q + 1/2⌋ := by
  rw [jsRound, Rat.floor_def', Rat.floor_def]

theorem jsRound_nonneg {q : ℚ} (h : 0 ≤ q) : 0 ≤ jsRound q := by
  rw [jsRound_eq_intFloor]
  exact Int.le_floor.mpr (by push_cast; linarith)

theorem jsRound_le {q : ℚ} {B : ℤ} (h : q ≤ (B : ℚ)) : jsRound q ≤ B := by
  rw [jsRound_eq_intFloor]
  have hlt : ⌊q + 1/2⌋ < B + 1 := Int.floor_lt.mpr (by push_cast; linarith)
  omega

theorem pct_nonneg {t m : ℚ} (h0 : 0 ≤ t) (hm : 0 < m) :
    0 ≤ jsRound (t / m * 100) :=
  jsRound_nonneg (by positivity)

theorem pct_le_100 {t m : ℚ} (hm : 0 < m) (h : t ≤ m) :
    jsRound (t / m * 100) ≤ 100 := by
  apply jsRound_le
  have h1 : t / m ≤ 1 := (div_le_one hm).mpr h
  push_cast
  nlinarith

theorem evalStructureCriterion_bounds (doc : Doc) (key : String)
    (c : Criterion) (hw : 0 ≤ c.weight) :
    0 ≤ (evalStructureCriterion doc key c).score
      ∧ (evalStructureCriterion doc key c).score
          ≤ (evalStructureCriterion doc key c).maxScore := by
  simp only [evalStructureCriterion]
  split_ifs <;> constructor <;> linarith

theorem evalTechnicalCriterion_bounds (doc : Doc) (key : String)
    (c : Criterion) (hw : 0 ≤ c.weight) :
    0 ≤ (evalTechnicalCriterion doc key c).score
      ∧ (evalTechnicalCriterion doc key c).score
          ≤ (evalTechnicalCriterion doc key c).maxScore := by
  simp only [evalTechnicalCriterion]
  split_ifs <;> constructor <;> linarith

theorem evalValidationCriterion_bounds (doc : Doc) (key : String)
    (c : Criterion) (hw : 0 ≤ c.weight) :
    0 ≤ (evalValidationCriterion doc key c).score
      ∧ (evalValidationCriterion doc key c).score
          ≤ (evalValidationCriterion doc key c).maxScore := by
  simp only [evalValidationCriterion]
  split_ifs with hkey hpass hsome hone
  · exact ⟨hw, le_rfl⟩
  · have hlt : doc.matchCount key < c.minCount.getD 1 := Nat.lt_of_not_le hpass
    have hmpos : (0 : ℚ) < ((c.minCount.getD 1 : ℕ) : ℚ) := by
      exact_mod_cast Nat.lt_of_lt_of_le Nat.zero_lt_one (by omega)
    have hratio1 : ((doc.matchCount key : ℕ) : ℚ)
        / ((c.minCount.getD 1 : ℕ) : ℚ) ≤ 1 :=
      (div_le_one hmpos).mpr (by exact_mod_cast hlt.le)
    have hratio0 : 0 ≤ ((doc.matchCount key : ℕ) : ℚ)
        / ((c.minCount.getD 1 : ℕ) : ℚ) :=
      div_nonneg (by positivity) hmpos.le
    exact ⟨mul_nonneg hratio0 hw, by nlinarith⟩
  · exact ⟨le_rfl, hw⟩
  · exact ⟨hw, le_rfl⟩
  · exact ⟨le_rfl, hw⟩

theorem validateStructure_results (doc : Doc) :
    (validateStructure doc).results = structureCriteria.map fun kc =>
      (kc.1, evalStructureCriterion doc kc.1 kc.2) := rfl

theorem validateTechnical_results (doc : Doc) :
    (validateTechnical doc).results = technicalCriteria.map fun kc =>
      (kc.1, evalTechnicalCriterion doc kc.1 kc.2) := rfl

theorem validateValidation_results (doc : Doc) :
    (validateValidation doc).results = validationCriteria.map fun kc =>
      (kc.1, evalValidationCriterion doc kc.1 kc.2) := rfl

theorem validateStructure_total_eq_sum (doc : Doc) :
    (validateStructure doc).totalScore
      = ((validateStructure doc).results.map fun kr => kr.2.score).sum := rfl

theorem validateTechnical_total_eq_sum (doc : Doc) :
    (validateTechnical doc).totalScore
      = ((validateTechnical doc).results.map fun kr => kr.2.score).sum := rfl

theorem validateValidation_total_eq_sum (doc : Doc) :
    (validateValidation doc).totalScore
      = ((validateValidation doc).results.map fun kr => kr.2.score).sum := rfl

theorem validateStructure_max_eq_sum (doc : Doc) :
    (validateStructure doc).maxScore
      = ((validateStructure doc).results.map fun kr => kr.2.maxScore).sum := rfl

theorem validateTechnical_max_eq_sum (doc : Doc) :
    (validateTechnical doc).maxScore
      = ((validateTechnical doc).results.map fun kr => kr.2.maxScore).sum := rfl

theorem validateValidation_max_eq_sum (doc : Doc) :
    (validateValidation doc).maxScore
      = ((validateValidation doc).results.map fun kr => kr.2.maxScore).sum := rfl

theorem validateStructure_percentage_def (doc : Doc) :
    (validateStructure doc).percentage
      = jsRound ((validateStructure doc).totalScore
          / (validateStructure doc).maxScore * 100) := rfl

theorem structureCriteria_weights_nonneg :
    ∀ kc ∈ structureCriteria, 0 ≤ kc.2.weight := by
  intro kc hkc
  fin_cases hkc <;> norm_num

theorem technicalCriteria_weights_nonneg :
    ∀ kc ∈ technicalCriteria, 0 ≤ kc.2.weight := by
  intro kc hkc
  fin_cases hkc <;> norm_num

theorem validationCriteria_weights_nonneg :
    ∀ kc ∈ validationCriteria, 0 ≤ kc.2.weight := by
  intro kc hkc
  fin_cases hkc <;> norm_num

theorem validateStructure_result_bounds (doc : Doc) :
    ∀ kr ∈ (validateStructure doc).results,
      0 ≤ kr.2.score ∧ kr.2.score ≤ kr.2.maxScore := by
  intro kr hkr
  rw [validateStructure_results, List.mem_map] at hkr
  obtain ⟨kc, hkc, rfl⟩ := hkr
  exact evalStructureCriterion_bounds doc kc.1 kc.2
    (structureCriteria_weights_nonneg kc hkc)

theorem validateTechnical_result_bounds (doc : Doc) :
    ∀ kr ∈ (validateTechnical doc).results,
      0 ≤ kr.2.score ∧ kr.2.score ≤ kr.2.maxScore := by
  intro kr hkr
  rw [validateTechnical_results, List.mem_map] at hkr
  obtain ⟨kc, hkc, rfl⟩ := hkr
  exact evalTechnicalCriterion_bounds doc kc.1 kc.2
    (technicalCriteria_weights_nonneg kc hkc)

theorem validateValidation_result_bounds (doc : Doc) :
    ∀ kr ∈ (validateValidation doc).results,
      0 ≤ kr.2.score ∧ kr.2.score ≤ kr.2.maxScore := by
  intro kr hkr
  rw [validateValidation_results, List.mem_map] at hkr
  obtain ⟨kc, hkc, rfl⟩ := hkr
  exact evalValidationCriterion_bounds doc kc.1 kc.2
    (validationCriteria_weights_nonneg kc hkc)

theorem validateStructure_total_nonneg (doc : Doc) :
    0 ≤ (validateStructure doc).totalScore := by
  rw [validateStructure_total_eq_sum]
  refine List.sum_nonneg fun x hx => ?_
  rw [List.mem_map] at hx
  obtain ⟨kr, hkr, rfl⟩ := hx
  exact (validateStructure_result_bounds doc kr hkr).1

theorem validateTechnical_total_nonneg (doc : Doc) :
    0 ≤ (validateTechnical doc).totalScore := by
  rw [validateTechnical_total_eq_sum]
  refine List.sum_nonneg fun x hx => ?_
  rw [List.mem_map] at hx
  obtain ⟨kr, hkr, rfl⟩ := hx
  exact (validateTechnical_result_bounds doc kr hkr).1

theorem validateValidation_total_nonneg (doc : Doc) :
    0 ≤ (validateValidation doc).totalScore := by
  rw [validateValidation_total_eq_sum]
  refine List.sum_nonneg fun x hx => ?_
  rw [List.mem_map] at hx
  obtain ⟨kr, hkr, rfl⟩ := hx
  exact (validateValidation_result_bounds doc kr hkr).1

theorem validateStructure_total_le_max (doc : Doc) :
    (validateStructure doc).totalScore ≤ (validateStructure doc).maxScore := by
  rw [validateStructure_total_eq_sum, validateStructure_max_eq_sum]
  exact List.sum_le_sum fun kr hkr =>
    (validateStructure_result_bounds doc kr hkr).2

theorem validateTechnical_total_le_max (doc : Doc) :
    (validateTechnical doc).totalScore ≤ (validateTechnical doc).maxScore := by
  rw [validateTechnical_total_eq_sum, validateTechnical_max_eq_sum]
  exact List.sum_le_sum fun kr hkr =>
    (validateTechnical_result_bounds doc kr hkr).2

theorem validateValidation_total_le_max (doc : Doc) :
    (validateValidation doc).totalScore ≤ (validateValidation doc).maxScore := by
  rw [validateValidation_total_eq_sum, validateValidation_max_eq_sum]
  exact List.sum_le_sum fun kr hkr =>
    (validateValidation_result_bounds doc kr hkr).2

theorem validateStructure_maxScore (doc : Doc) :
    (validateStructure doc).maxScore = 10 := by
  norm_num [validateStructure, structureCriteria, evalStructureCriterion]

theorem validateTechnical_maxScore (doc : Doc) :
    (validateTechnical doc).maxScore = 8 := by
  norm_num [validateTechnical, technicalCriteria, evalTechnicalCriterion]

theorem validateValidation_maxScore (doc : Doc) :
    (validateValidation doc).maxScore = 7 := by
  simp [validateValidation, validationCriteria, evalValidationCriterion]
  norm_num

theorem validateAICompatibility_maxScore (doc : Doc) :
    (validateAICompatibility doc).maxScore = 8 := by
  norm_num [validateAICompatibility, contextBoundsWeight, referencesWeight,
    clarityWeight]

theorem validateStructure_percentage_bounds (doc : Doc) :
    0 ≤ (validateStructure doc).percentage
      ∧ (validateStructure doc).percentage ≤ 100 := by
  rw [validateStructure_percentage_def]
  have h0 := validateStructure_total_nonneg doc
  have h1 := validateStructure_total_le_max doc
  have hm : (0 : ℚ) < (validateStructure doc).maxScore := by
    rw [validateStructure_maxScore]; norm_num
  exact ⟨pct_nonneg h0 hm, pct_le_100 hm h1⟩

theorem contextBoundsResult_bounds (doc : Doc) :
    0 ≤ (contextBoundsResult doc).score
      ∧ (contextBoundsResult doc).score ≤ 3 := by
  simp only [contextBoundsResult, contextBoundsWeight, contextBoundsMaxLength]
  refine ⟨le_max_left 0 _, max_le (by norm_num) ?_⟩
  split_ifs with h
  · norm_num
  · have hlen : (6000 : ℚ) < (doc.length : ℚ) := by
      exact_mod_cast Nat.lt_of_not_le h
    have hd : 0 ≤ ((doc.length : ℚ) - 6000) / 6000 :=
      div_nonneg (by linarith) (by norm_num)
    linarith

theorem referencesResult_bounds (doc : Doc) :
    0 ≤ (referencesResult doc).score ∧ (referencesResult doc).score ≤ 2 := by
  simp only [referencesResult, referencesWeight]
  split_ifs <;> norm_num

theorem clarityResult_bounds (doc : Doc) :
    0 ≤ (clarityResult doc).score ∧ (clarityResult doc).score ≤ 3 := by
  simp only [clarityResult, clarityWeight]
  have h := validateStructure_percentage_bounds doc
  have h0 : (0 : ℚ) ≤ ((validateStructure doc).percentage : ℚ) := by
    exact_mod_cast h.1
  have h1 : ((validateStructure doc).percentage : ℚ) ≤ 100 := by
    exact_mod_cast h.2
  constructor
  · exact mul_nonneg (by norm_num) (div_nonneg h0 (by norm_num))
  · have : ((validateStructure doc).percentage : ℚ) / 100 ≤ 1 :=
      (div_le_one (by norm_num)).mpr h1
    linarith

theorem validateAICompatibility_total_eq (doc : Doc) :
    (validateAICompatibility doc).totalScore
      = (contextBoundsResult doc).score + (referencesResult doc).score
        + (clarityResult doc).score := rfl

theorem validateAICompatibility_total_nonneg (doc : Doc) :
    0 ≤ (validateAICompatibility doc).totalScore := by
  rw [validateAICompatibility_total_eq]
  have h1 := contextBoundsResult_bounds doc
  have h2 := referencesResult_bounds doc
  have h3 := clarityResult_bounds doc
  linarith [h1.1, h2.1, h3.1]

theorem validateAICompatibility_total_le_max (doc : Doc) :
    (validateAICompatibility doc).totalScore
      ≤ (validateAICompatibility doc).maxScore := by
  rw [validateAICompatibility_total_eq, validateAICompatibility_maxScore]
  have h1 := contextBoundsResult_bounds doc
  have h2 := referencesResult_bounds doc
  have h3 := clarityResult_bounds doc
  linarith [h1.2, h2.2, h3.2]

theorem validatePrompt_overall_score_eq (doc : Doc) :
    (validatePrompt doc).overallScore.score
      = (validateStructure doc).totalScore + (validateTechnical doc).totalScore
        + (validateValidation doc).totalScore
        + (validateAICompatibility doc).totalScore := rfl

theorem validatePrompt_overall_max_eq (doc : Doc) :
    (validatePrompt doc).overallScore.maxScore
      = (validateStructure doc).maxScore + (validateTechnical doc).maxScore
        + (validateValidation doc).maxScore
        + (validateAICompatibility doc).maxScore := rfl

theorem validatePrompt_overall_maxScore (doc : Doc) :
    (validatePrompt doc).overallScore.maxScore = 33 := by
  rw [validatePrompt_overall_max_eq, validateStructure_maxScore,
    validateTechnical_maxScore, validateValidation_maxScore,
    validateAICompatibility_maxScore]
  norm_num

theorem validatePrompt_percentage_def (doc : Doc) :
    (validatePrompt doc).overallScore.percentage
      = jsRound ((validatePrompt doc).overallScore.score
          / (validatePrompt doc).overallScore.maxScore * 100) := rfl

theorem validatePrompt_recommendation_def (doc : Doc) :
    (validatePrompt doc).recommendation
      = recommendationFor (validatePrompt doc).overallScore.percentage := rfl

theorem validatePrompt_overall_score_nonneg (doc : Doc) :
    0 ≤ (validatePrompt doc).overallScore.score := by
  rw [validatePrompt_overall_score_eq]
  linarith [validateStructure_total_nonneg doc, validateTechnical_total_nonneg doc,
    validateValidation_total_nonneg doc, validateAICompatibility_total_nonneg doc]

theorem validatePrompt_overall_score_le_max (doc : Doc) :
    (validatePrompt doc).overallScore.score
      ≤ (validatePrompt doc).overallScore.maxScore := by
  rw [validatePrompt_overall_score_eq, validatePrompt_overall_max_eq]
  linarith [validateStructure_total_le_max doc, validateTechnical_total_le_max doc,
    validateValidation_total_le_max doc, validateAICompatibility_total_le_max doc]

theorem validatePrompt_percentage_bounds (doc : Doc) :
    0 ≤ (validatePrompt doc).overallScore.percentage
      ∧ (validatePrompt doc).overallScore.percentage ≤ 100 := by
  rw [validatePrompt_percentage_def]
  have hm : (0 : ℚ) < (validatePrompt doc).overallScore.maxScore := by
    rw [validatePrompt_overall_maxScore]; norm_num
  exact ⟨pct_nonneg (validatePrompt_overall_score_nonneg doc) hm,
    pct_le_100 hm (validatePrompt_overall_score_le_max doc)⟩

theorem contextBoundsResult_maxScore (doc : Doc) :
    (contextBoundsResult doc).maxScore = 3 := rfl

theorem referencesResult_maxScore (doc : Doc) :
    (referencesResult doc).maxScore = 2 := rfl

theorem clarityResult_maxScore (doc : Doc) :
    (clarityResult doc).maxScore = 3 := rfl

theorem validateAICompatibility_results (doc : Doc) :
    (validateAICompatibility doc).results
      = [("contextBounds", contextBoundsResult doc),
         ("references", referencesResult doc),
         ("clarity", clarityResult doc)] := rfl

theorem ite_half_eq_bool (w : ℚ) (n : ℕ) :
    (if 1 ≤ n then w else if 0 < n then w / 2 else 0)
      = if 1 ≤ n then w else 0 := by
  by_cases h : 1 ≤ n
  · simp [h]
  · have h0 : ¬ 0 < n := by omega
    simp [h, h0]

theorem decide_pos_eq_one_le (n : ℕ) : decide (0 < n) = decide (1 ≤ n) := by
  by_cases h : 0 < n
  · rw [decide_eq_true h, decide_eq_true (show 1 ≤ n by omega)]
  · rw [decide_eq_false h, decide_eq_false (show ¬ 1 ≤ n by omega)]

theorem recommendationFor_eq_spec (p : ℤ) :
    recommendationFor p = specRecommendation p := by
  unfold recommendationFor specRecommendation thresholdLabels
  by_cases h90 : (90 : ℤ) ≤ p
  · simp [List.find?, h90]
  · by_cases h75 : (75 : ℤ) ≤ p
    · simp [List.find?, h90, h75]
    · by_cases h50 : (50 : ℤ) ≤ p
      · simp [List.find?, h90, h75, h50]
      · simp [List.find?, h90, h75, h50]

theorem validateValidation_checklist_lookup (doc : Doc) :
    (validateValidation doc).results.lookup "checklistItems"
      = some (evalValidationCriterion doc "checklistItems" ⟨3, some 5⟩) := by
  rw [validateValidation_results]
  simp [validationCriteria, List.lookup]

theorem validateTechnical_codeBlocks_lookup (doc : Doc) :
    (validateTechnical doc).results.lookup "codeBlocks"
      = some (evalTechnicalCriterion doc "codeBlocks" ⟨3, some 1⟩) := by
  rw [validateTechnical_results]
  simp [technicalCriteria, List.lookup]

theorem validateAICompatibility_context_lookup (doc : Doc) :
    (validateAICompatibility doc).results.lookup "contextBounds"
      = some (contextBoundsResult doc) := by
  rw [validateAICompatibility_results]
  simp [List.lookup]

theorem scoreOf_checklist (doc : Doc) :
    scoreOf (validateValidation doc) "checklistItems"
      = if 5 ≤ doc.matchCount "checklistItems" then 3
        else if 0 < doc.matchCount "checklistItems"
        then ((doc.matchCount "checklistItems" : ℚ) / 5) * 3 else 0 := by
  rw [scoreOf, validateValidation_checklist_lookup]
  simp [evalValidationCriterion]

theorem passedOf_checklist (doc : Doc) :
    passedOf (validateValidation doc) "checklistItems"
      = decide (5 ≤ doc.matchCount "checklistItems") := by
  rw [passedOf, validateValidation_checklist_lookup]
  simp [evalValidationCriterion]

theorem scoreOf_codeBlocks (doc : Doc) :
    scoreOf (validateTechnical doc) "codeBlocks"
      = if 1 ≤ doc.matchCount "codeBlocks" then 3
        else if 0 < doc.matchCount "codeBlocks" then 3 / 2 else 0 := by
  rw [scoreOf, validateTechnical_codeBlocks_lookup]
  simp [evalTechnicalCriterion]

theorem passedOf_codeBlocks (doc : Doc) :
    passedOf (validateTechnical doc) "codeBlocks"
      = decide (1 ≤ doc.matchCount "codeBlocks") := by
  rw [passedOf, validateTechnical_codeBlocks_lookup]
  simp [evalTechnicalCriterion]

theorem scoreOf_contextBounds (doc : Doc) :
    scoreOf (validateAICompatibility doc) "contextBounds"
      = (contextBoundsResult doc).score := by
  rw [scoreOf, validateAICompatibility_context_lookup]
  rfl

theorem passedOf_contextBounds (doc : Doc) :
    passedOf (validateAICompatibility doc) "contextBounds"
      = decide (doc.length ≤ 6000) := by
  rw [passedOf, validateAICompatibility_context_lookup]
  rfl

theorem batchTotalScore_eq_processed_sum (files : List (String × Option Doc)) :
    batchTotalScore files
      = ((processedPercentages files).map fun p => (p : ℚ)).sum := by
  induction files with
  | nil => rfl
  | cons fd rest ih =>
    cases h : validatePromptFile fd.2
    · simpa [batchTotalScore, processedPercentages, h] using ih
    · simpa [batchTotalScore, processedPercentages, h] using ih

theorem processedPercentages_length_eq (files : List (String × Option Doc))
    (hall : ∀ fd ∈ files, (validatePromptFile fd.2).isSome = true) :
    (processedPercentages files).length = files.length := by
  induction files with
  | nil => rfl
  | cons fd rest ih =>
    cases h : validatePromptFile fd.2
    · exact absurd (hall fd (by simp)) (by simp [h])
    · have := ih fun x hx => hall x (List.mem_cons_of_mem _ hx)
      simpa [processedPercentages, h] using this

theorem blankDoc_percentage :
    (validatePrompt blankDoc).overallScore.percentage = 9 := by
  simp [validatePrompt, validateStructure, validateTechnical, validateValidation,
    validateAICompatibility, contextBoundsResult, referencesResult, clarityResult,
    evalStructureCriterion, evalTechnicalCriterion, evalValidationCriterion,
    structureCriteria, technicalCriteria, validationCriteria, blankDoc,
    jsRound_eq_intFloor, contextBoundsWeight, referencesWeight, clarityWeight,
    contextBoundsMaxLength]
  norm_num

theorem blankDoc_length : blankDoc.length = 1 := rfl

theorem validatePromptFile_blankDoc :
    validatePromptFile (some blankDoc) = some (validatePrompt blankDoc) := by
  simp [validatePromptFile, blankDoc_length]

/-! ### Claim theorems -/

/-- C1: for every criterion that declares a minimum occurrence count m > 0
(`checklistItems` with m = 5 and `codeBlocks` with m = 1) and every
document: the criterion passes iff the match count is ≥ m, and the awarded
score is the full weight when passed, `weight * (matchCount / m)` when
0 < matchCount < m, and zero otherwise; a document with exactly 3 matches
against minimum 5 and weight 3 scores 1.8. -/
theorem minCount_criterion_scoring (doc : Doc) :
    (passedOf (validateValidation doc) "checklistItems"
        = decide (5 ≤ doc.matchCount "checklistItems"))
      ∧ (scoreOf (validateValidation doc) "checklistItems"
          = if 5 ≤ doc.matchCount "checklistItems" then 3
            else if 0 < doc.matchCount "checklistItems"
            then ((doc.matchCount "checklistItems" : ℚ) / 5) * 3 else 0)
      ∧ (passedOf (validateTechnical doc) "codeBlocks"
          = decide (1 ≤ doc.matchCount "codeBlocks"))
      ∧ (scoreOf (validateTechnical doc) "codeBlocks"
          = if 1 ≤ doc.matchCount "codeBlocks" then 3
            else if 0 < doc.matchCount "codeBlocks"
            then ((doc.matchCount "codeBlocks" : ℚ) / 1) * 3 else 0)
      ∧ scoreOf (validateValidation threeMatchDoc) "checklistItems" = 1.8 := by
  refine ⟨passedOf_checklist doc, scoreOf_checklist doc,
    passedOf_codeBlocks doc, ?_, ?_⟩
  · rw [scoreOf_codeBlocks]
    by_cases h : 1 ≤ doc.matchCount "codeBlocks"
    · simp [h]
    · have h0 : ¬ 0 < doc.matchCount "codeBlocks" := by omega
      simp [h, h0]
  · rw [scoreOf_checklist]
    norm_num [threeMatchDoc]

/-- C2: the recommendation label of every document report is the one the
spec's descending threshold iteration (90, 75, 50, ≥) assigns to its
overall percentage; in particular 75 maps to "Approved with minor
revisions", 74 to "Requires significant revision" and 90 to "Approved for
production". -/
theorem recommendation_thresholding :
    (∀ doc : Doc, (validatePrompt doc).recommendation
        = specRecommendation (validatePrompt doc).overallScore.percentage)
      ∧ recommendationFor 75 = "Approved with minor revisions"
      ∧ recommendationFor 74 = "Requires significant revision"
      ∧ recommendationFor 90 = "Approved for production" := by
  refine ⟨fun doc => ?_, by norm_num [recommendationFor],
    by norm_num [recommendationFor], by norm_num [recommendationFor]⟩
  rw [validatePrompt_recommendation_def, recommendationFor_eq_spec]

/-- C3: the length-bounded criterion (`contextBounds`, bound 6000, weight
3) passes iff the document length is ≤ 6000; above the bound the score is
`3 * (1 - (length - 6000)/6000)` floored at zero, hence never negative;
a document of length 7000 scores 2.5. -/
theorem length_bound_scoring (doc : Doc) :
    (passedOf (validateAICompatibility doc) "contextBounds"
        = decide (doc.length ≤ 6000))
      ∧ (scoreOf (validateAICompatibility doc) "contextBounds"
          = if doc.length ≤ 6000 then 3
            else max 0 (3 * (1 - ((doc.length : ℚ) - 6000) / 6000)))
      ∧ 0 ≤ scoreOf (validateAICompatibility doc) "contextBounds"
      ∧ scoreOf (validateAICompatibility doc) "contextBounds" ≤ 3
      ∧ scoreOf (validateAICompatibility longDoc) "contextBounds" = 2.5 := by
  refine ⟨passedOf_contextBounds doc, ?_, ?_, ?_, ?_⟩
  · rw [scoreOf_contextBounds]
    by_cases h : doc.length ≤ 6000
    · simp [contextBoundsResult, contextBoundsWeight, contextBoundsMaxLength, h]
    · simp [contextBoundsResult, contextBoundsWeight, contextBoundsMaxLength, h]
  · rw [scoreOf_contextBounds]
    exact (contextBoundsResult_bounds doc).1
  · rw [scoreOf_contextBounds]
    exact (contextBoundsResult_bounds doc).2
  · rw [scoreOf_contextBounds]
    simp [contextBoundsResult, contextBoundsWeight, contextBoundsMaxLength, longDoc]
    norm_num

/-- C4: for every document the overall max score is 33 (hence positive),
the overall percentage equals `round(100 * total / max)` and lies in
[0, 100]; the zero-max case, in which the percentage is stipulated to be
0, cannot arise because the max is the constant 33. -/
theorem overall_percentage_formula (doc : Doc) :
    (validatePrompt doc).overallScore.maxScore = 33
      ∧ (validatePrompt doc).overallScore.percentage
          = jsRound (100 * (validatePrompt doc).overallScore.score
              / (validatePrompt doc).overallScore.maxScore)
      ∧ 0 ≤ (validatePrompt doc).overallScore.percentage
      ∧ (validatePrompt doc).overallScore.percentage ≤ 100
      ∧ ((validatePrompt doc).overallScore.maxScore = 0
          → (validatePrompt doc).overallScore.percentage = 0) := by
  refine ⟨validatePrompt_overall_maxScore doc, ?_,
    (validatePrompt_percentage_bounds doc).1,
    (validatePrompt_percentage_bounds doc).2, ?_⟩
  · rw [validatePrompt_percentage_def]
    congr 1
    ring
  · intro h
    rw [validatePrompt_overall_maxScore doc] at h
    norm_num at h

/-- C5: for every document, in every one of the four categories each
criterion score lies in `[0, weight]`, the category total is the sum of
the criterion scores, and the total lies in `[0, max]`. -/
theorem category_invariants (doc : Doc) :
    categoryOk (validateStructure doc) ∧ categoryOk (validateTechnical doc)
      ∧ categoryOk (validateValidation doc)
      ∧ categoryOk (validateAICompatibility doc) := by
  refine ⟨⟨?_, validateStructure_total_eq_sum doc,
      validateStructure_total_nonneg doc, validateStructure_total_le_max doc⟩,
    ⟨?_, validateTechnical_total_eq_sum doc,
      validateTechnical_total_nonneg doc, validateTechnical_total_le_max doc⟩,
    ⟨?_, validateValidation_total_eq_sum doc,
      validateValidation_total_nonneg doc, validateValidation_total_le_max doc⟩,
    ⟨?_, ?_, validateAICompatibility_total_nonneg doc,
      validateAICompatibility_total_le_max doc⟩⟩
  · rw [List.all_eq_true]
    intro kr hkr
    simpa using validateStructure_result_bounds doc kr hkr
  · rw [List.all_eq_true]
    intro kr hkr
    simpa using validateTechnical_result_bounds doc kr hkr
  · rw [List.all_eq_true]
    intro kr hkr
    simpa using validateValidation_result_bounds doc kr hkr
  · rw [List.all_eq_true]
    intro kr hkr
    rw [validateAICompatibility_results] at hkr
    simp only [List.mem_cons, List.not_mem_nil, or_false] at hkr
    rcases hkr with h | h | h <;> subst h <;>
      simp only [decide_eq_true_eq]
    · exact ⟨(contextBoundsResult_bounds doc).1, by
        rw [contextBoundsResult_maxScore]
        exact (contextBoundsResult_bounds doc).2⟩
    · exact ⟨(referencesResult_bounds doc).1, by
        rw [referencesResult_maxScore]
        exact (referencesResult_bounds doc).2⟩
    · exact ⟨(clarityResult_bounds doc).1, by
        rw [clarityResult_maxScore]
        exact (clarityResult_bounds doc).2⟩
  · rw [validateAICompatibility_total_eq, validateAICompatibility_results]
    simp [add_assoc]

/-- C6 counterexample: in a batch of two matched files — one readable
one-character document scoring 9% (which passes the line-229 guard and is
validated) and one unreadable file — the reported average is
round(9/2) = 5, while the arithmetic mean of the overall percentages
across the processed documents is 9: the code divides by the number of
matched files, not processed ones. -/
theorem average_score_counterexample :
    averageScore [("a.md", some blankDoc), ("b.md", none)] = 5
      ∧ processedMean [("a.md", some blankDoc), ("b.md", none)] = 9
      ∧ ((averageScore [("a.md", some blankDoc), ("b.md", none)] : ℚ)
          ≠ processedMean [("a.md", some blankDoc), ("b.md", none)]) := by
  have h1 : averageScore [("a.md", some blankDoc), ("b.md", none)] = 5 := by
    have hb : batchTotalScore [("a.md", some blankDoc), ("b.md", none)] = 9 := by
      simp [batchTotalScore, validatePromptFile, blankDoc_length,
        blankDoc_percentage]
    rw [averageScore, hb]
    rw [jsRound_eq_intFloor]
    norm_num
  have h2 : processedMean [("a.md", some blankDoc), ("b.md", none)] = 9 := by
    simp [processedMean, processedPercentages, validatePromptFile,
      blankDoc_length, blankDoc_percentage]
  exact ⟨h1, h2, by rw [h1, h2]; norm_num⟩

/-- C6 amended: the reported average is the rounded quotient of the sum of
overall percentages of the successfully validated documents by the number
of matched files; whenever every matched file produces a report (it reads
successfully and its content is non-empty, so the line-229 guard passes)
the reported average coincides with the rounded arithmetic mean across
processed documents. -/
theorem average_score_all_validated (files : List (String × Option Doc))
    (hall : ∀ fd ∈ files, (validatePromptFile fd.2).isSome = true) :
    averageScore files = jsRound (processedMean files) := by
  rw [averageScore, processedMean, batchTotalScore_eq_processed_sum,
    processedPercentages_length_eq files hall]

/-- Witness for C6 amended: a singleton batch of one readable non-empty
file, where the reported average equals the rounded mean across processed
documents. -/
theorem average_score_all_validated_witness :
    averageScore [("a.md", some blankDoc)]
      = jsRound (processedMean [("a.md", some blankDoc)]) :=
  average_score_all_validated [("a.md", some blankDoc)]
    (by simp [validatePromptFile, blankDoc_length])

/-- C7: every criterion without a minimum occurrence count (all structure
criteria, the three technical criteria other than `codeBlocks`, the two
non-checklist validation criteria, and `references`) passes iff at least
one match exists and is awarded full weight or zero — never partial
credit. -/
theorem boolean_criteria_scoring (doc : Doc) :
    booleanScored (validateStructure doc) "overview" (doc.matchCount "overview")
      ∧ booleanScored (validateStructure doc) "techStack"
          (doc.matchCount "techStack")
      ∧ booleanScored (validateStructure doc) "requirements"
          (doc.matchCount "requirements")
      ∧ booleanScored (validateStructure doc) "steps" (doc.matchCount "steps")
      ∧ booleanScored (validateStructure doc) "validation"
          (doc.matchCount "validation")
      ∧ booleanScored (validateTechnical doc) "componentImports"
          (doc.matchCount "componentImports")
      ∧ booleanScored (validateTechnical doc) "typescriptTypes"
          (doc.matchCount "typescriptTypes")
      ∧ booleanScored (validateTechnical doc) "reactHooks"
          (doc.matchCount "reactHooks")
      ∧ booleanScored (validateValidation doc) "errorHandling"
          (doc.matchCount "errorHandling")
      ∧ booleanScored (validateValidation doc) "examples"
          (doc.matchCount "examples")
      ∧ booleanScored (validateAICompatibility doc) "references"
          (doc.matchCount "references") := by
  refine ⟨?_, ?_, ?_, ?_, ?_, ?_, ?_, ?_, ?_, ?_, ?_⟩ <;>
    simp [booleanScored, passedOf, scoreOf, maxScoreOf, validateStructure,
      validateTechnical, validateValidation, validateAICompatibility,
      structureCriteria, technicalCriteria, validationCriteria,
      evalStructureCriterion, evalTechnicalCriterion, evalValidationCriterion,
      contextBoundsResult, referencesResult, clarityResult, List.lookup,
      ite_half_eq_bool, decide_pos_eq_one_le, referencesWeight]
  all_goals split_ifs <;> first | rfl | (exfalso; omega)

/-- C8: with the required file-pattern argument missing the run exits with
code 1 after printing the usage message to standard error and writes no
reports; with an argument whose glob matches zero files the run exits with
code 0, emits one warning line to standard error, and writes no reports. -/
theorem cli_exit_behavior
    (globSync : String → List (String × Option Doc)) (pat : String) :
    (main [] globSync).exitCode = 1
      ∧ (main [] globSync).stderrLines = usageLines
      ∧ (main [] globSync).reportsWritten = []
      ∧ (main [pat] fun _ => []).exitCode = 0
      ∧ (main [pat] fun _ => []).stderrLines
          = ["Warning: No files found matching pattern: " ++ pat]
      ∧ (main [pat] fun _ => []).reportsWritten = [] := by
  refine ⟨rfl, rfl, rfl, ?_, ?_, ?_⟩ <;> simp [main]

/-- C9: an unreadable file in the middle of a batch yields a logged read
error instead of a report, while every other file — including all the
files after it — is still processed exactly as it would be otherwise; the
batch is never aborted. -/
theorem batch_error_isolation (xs ys : List (String × Option Doc))
    (f : String) :
    runBatch (xs ++ (f, none) :: ys)
        = runBatch xs ++ FileOutcome.readError f :: runBatch ys
      ∧ reportsOf (runBatch (xs ++ (f, none) :: ys))
          = reportsOf (runBatch xs) ++ reportsOf (runBatch ys)
      ∧ (runBatch (xs ++ (f, none) :: ys)).length
          = xs.length + 1 + ys.length := by
  refine ⟨?_, ?_, ?_⟩
  · simp [runBatch]
  · simp [runBatch, reportsOf]
  · simp [runBatch]
    omega

/-- C10: for every document, every criterion of the technical category is
awarded either zero or its full weight: each effective minimum count is 1,
so a positive match count already passes and the half-weight branch is
unreachable. -/
theorem technical_scores_full_or_zero (doc : Doc) :
    ((validateTechnical doc).results.all fun kr =>
      decide (kr.2.score = 0 ∨ kr.2.score = kr.2.maxScore)) = true := by
  rw [List.all_eq_true]
  intro kr hkr
  rw [validateTechnical_results, List.mem_map] at hkr
  obtain ⟨kc, hkc, rfl⟩ := hkr
  simp only [decide_eq_true_eq]
  fin_cases hkc <;>
    simp only [evalTechnicalCriterion, Option.getD_some, Option.getD_none] <;>
    split_ifs with h1 h2 <;>
    first
      | (right; rfl)
      | (left; rfl)
      | (exfalso; omega)

end PromptValidator
